import Mathlib

/-!
Verification of the gohive client library (hive.go) against its
natural-language specification.

The Go source is shallowly embedded: pure helpers become Lean functions,
the cursor's mutable fields become a `CursorState` record threaded through
each operation, and the Hive server is an explicit stream of scripted RPC
responses.  Go `int`/`int32`/`int64` values are modelled as `Int` (the code
only copies and compares them; no overflow arithmetic occurs), Go `byte`
as `Nat` (always < 256 in real executions; the bit operations used are
identical), Go `float64` payloads as their raw 64-bit pattern (`Nat`),
since the code only moves them around, and Go slices/strings as
`List`/`String`.  Thrift optional (pointer) fields become `Option`.
-/

/-! ## Thrift wire-level data model (generated hiveserver stubs) -/

/-- TStatusCode from the thrift IDL. -/
inductive TStatusCode where
  | success
  | successWithInfo
  | stillExecuting
  | errorStatus
  | invalidHandle
deriving DecidableEq, Repr

/-- TStatus: status code plus optional error message / error code.
(`sqlState` and `infoMessages` are never read by the client code under
verification and are omitted.) -/
structure TStatus where
  statusCode : TStatusCode
  errorMessage : Option String := none
  errorCode : Option Int := none
deriving DecidableEq, Repr

/-- Thrift generated getter: returns the field value, or the zero value
when the optional field is unset. -/
def TStatus.getErrorMessage (s : TStatus) : String :=
  match s.errorMessage with
  | some m => m
  | none => ""

/-- Thrift generated getter: zero value when unset; the Go code converts
the `int32` to `int`. -/
def TStatus.getErrorCode (s : TStatus) : Int :=
  match s.errorCode with
  | some c => c
  | none => 0

/-- Defaults substituted by `safeStatus` for a nil status pointer
(hive.go `DEFAULT_STATUS`). -/
def DEFAULT_STATUS : TStatus :=
  { statusCode := TStatusCode.errorStatus
    errorMessage := some "unknown error"
    errorCode := some (-1) }

/-- hive.go `safeStatus`: replace a nil `*TStatus` with `DEFAULT_STATUS`. -/
def safeStatus (status : Option TStatus) : TStatus :=
  match status with
  | none => DEFAULT_STATUS
  | some s => s

/-- hive.go `success`: SUCCESS or SUCCESS_WITH_INFO. -/
def success (status : TStatus) : Bool :=
  status.statusCode = TStatusCode.success ||
    status.statusCode = TStatusCode.successWithInfo

/-- TOperationState from the thrift IDL (names shortened, same order). -/
inductive TOperationState where
  | initial      -- INITIALIZED_STATE
  | running      -- RUNNING_STATE
  | finished     -- FINISHED_STATE
  | canceled     -- CANCELED_STATE
  | closed       -- CLOSED_STATE
  | errorState   -- ERROR_STATE
  | unknown      -- UKNOWN_STATE
  | pending      -- PENDING_STATE
  | timedout     -- TIMEDOUT_STATE
deriving DecidableEq, Repr

/-- One typed column vector: values plus the packed null bitmap
(`Nulls []byte` in thrift). -/
structure TColumnData (α : Type) where
  values : List α
  nulls : List Nat
deriving DecidableEq, Repr, Inhabited

/-- TColumn: the thrift union of typed column vectors; each arm is an
optional pointer, `IsSetX` tests it for nil.  `byteVal`..`i64Val` carry Go
`int8`..`int64` values (modelled as `Int`), `doubleVal` carries the raw
float64 payload, `binaryVal` carries `[]byte` values. -/
structure TColumn where
  boolVal : Option (TColumnData Bool) := none
  byteVal : Option (TColumnData Int) := none
  i16Val : Option (TColumnData Int) := none
  i32Val : Option (TColumnData Int) := none
  i64Val : Option (TColumnData Int) := none
  doubleVal : Option (TColumnData Nat) := none
  stringVal : Option (TColumnData String) := none
  binaryVal : Option (TColumnData (List Nat)) := none
deriving DecidableEq, Repr

/-! ## Null bitmap (hive.go `isNull`) -/

/-- hive.go `isNull`: byte at `position/8`, bit `position%8`; a bitmap too
short to contain that byte means not-null.  `position` comes from
`c.columnIndex`, which is only ever 0 or incremented, hence `Nat`. -/
def isNull (nulls : List Nat) (position : Nat) : Bool :=
  let index := position / 8
  if nulls.length > index then
    let b := nulls.getD index 0
    (b &&& (1 <<< (position % 8))) != 0
  else
    false

/-- C1: for every byte vector `nulls` and row index `k`, `isNull` returns
true exactly when the bitmap contains a byte at position `k / 8` whose bit
`k % 8` is set; whenever the bitmap is too short to contain byte `k / 8`
the result is false (row treated as not-null). -/
theorem isNull_spec (nulls : List Nat) (k : Nat) :
    isNull nulls k =
      (decide (k / 8 < nulls.length) && (nulls.getD (k / 8) 0).testBit (k % 8)) := by
  unfold isNull
  by_cases h : k / 8 < nulls.length
  · have hshift : (1 : Nat) <<< (k % 8) = 2 ^ (k % 8) := by
      simp [Nat.shiftLeft_eq]
    simp only [h, if_pos, decide_True, Bool.true_and, hshift, Nat.and_two_pow]
    cases hb : (nulls.getD (k / 8) 0).testBit (k % 8) <;>
      simp [hb, Nat.pos_iff_ne_zero, pow_ne_zero]
  · simp [h]

/-! ## Cursor data model -/

/-- Cursor state tag (hive.go constants `_RUNNING` .. `_ASYNC_ENDED`). -/
inductive CState where
  | running      -- _RUNNING
  | finished     -- _FINISHED
  | noneState    -- _NONE
  | contextDone  -- _CONTEXT_DONE
  | errorState   -- _ERROR
  | asyncEnded   -- _ASYNC_ENDED
deriving DecidableEq, Repr

/-- The errors the cursor can store in `c.Err`, tagged by origin.  Where a
claim pins down the exact Go message, `CursorError.message` below renders
it; other constructors carry the data the Go error is built from (texts
produced by fmt verbs such as %T, or by thrift String(), are not
reproduced verbatim). -/
inductive CursorError where
  | noMoreRows
  | argCount (passed : Nat) (columns : Nat)
  | typeMismatch (index : Nat)
  | emptyColumn (index : Nat)
  | allColumnsEmpty
  | unrecognizedColumn
  | fetchStatus (code : TStatusCode)
  | tooFewRows (received : Nat)
  | rpcError (msg : String)
  | hiveError (message : String) (errorCode : Int)
  | operationFailed (msg : String)
  | pollStatus (code : TStatusCode)
deriving DecidableEq, Repr

/-- Go text of the errors whose wording the specification fixes. -/
def CursorError.message : CursorError → String
  | CursorError.noMoreRows => "No more rows are left"
  | CursorError.argCount passed columns =>
      toString passed ++ " arguments where passed for filling but the number of columns is "
        ++ toString columns
  | CursorError.typeMismatch index => "Unexpected data type, index is " ++ toString index
  | CursorError.emptyColumn index => "Empty column, index is " ++ toString index
  | CursorError.allColumnsEmpty => "All columns seem empty"
  | CursorError.unrecognizedColumn => "Unrecognized column type"
  | CursorError.fetchStatus _ => "fetch results status was not SUCCESS_STATUS"
  | CursorError.tooFewRows received => "Only " ++ toString received ++ " rows where received"
  | CursorError.rpcError msg => msg
  | CursorError.hiveError message _ => "Error while executing query: " ++ message
  | CursorError.operationFailed msg => msg
  | CursorError.pollStatus _ => "Error closing the operation: status was not success"

/-- TOperationHandle: only `HasResultSet` is inspected by the modelled code. -/
structure TOperationHandle where
  hasResultSet : Bool
deriving DecidableEq, Repr

/-- TFetchResultsResp: status plus `Results.GetColumns()`; a nil `Results`
makes `GetColumns` return the empty list. -/
structure TFetchResultsResp where
  status : Option TStatus
  columns : List TColumn
deriving DecidableEq, Repr

/-- The mutable fields of hive.go's `Cursor` that the fetch engine reads
and writes (`conn` and the log channel are external; `response` is only
ever tested against nil, kept as `responseSet`). -/
structure CursorState where
  operationHandle : Option TOperationHandle := none
  queue : List TColumn := []
  responseSet : Bool := false
  columnIndex : Nat := 0
  totalRows : Int := 0
  state : CState := CState.noneState
  newData : Bool := false
  err : Option CursorError := none
  description : List (List String) := []
deriving Repr

/-- The Hive server as seen through `FetchResults` for row data: a stream
of scripted responses, `idx` counting the RPCs already made. -/
structure Server where
  resps : Nat → TFetchResultsResp
  idx : Nat := 0

/-- A server whose every scripted fetch response carries a SUCCESS status
(the normal-operation assumption of the specification). -/
def goodServer (s : Server) : Prop :=
  ∀ k, (safeStatus (s.resps k).status).statusCode = TStatusCode.success

/-! ## Batch parsing (hive.go `getTotalRows`, `parseResults`) -/

/-- hive.go `getTotalRows`: Go ranges over the columns but every branch
returns, so only the first column is ever inspected; returns the Go pair
(int, error) — `(-1, err)` for an unset union, `(0, err)` for an empty
column list.  Dispatch order as in the source: binary, byte, i16, i32,
i64, bool, double, string. -/
def getTotalRows (columns : List TColumn) : Int × Option CursorError :=
  match columns with
  | [] => (0, some CursorError.allColumnsEmpty)
  | el :: _ =>
    if el.binaryVal.isSome then ((el.binaryVal.getD default).values.length, none)
    else if el.byteVal.isSome then ((el.byteVal.getD default).values.length, none)
    else if el.i16Val.isSome then ((el.i16Val.getD default).values.length, none)
    else if el.i32Val.isSome then ((el.i32Val.getD default).values.length, none)
    else if el.i64Val.isSome then ((el.i64Val.getD default).values.length, none)
    else if el.boolVal.isSome then ((el.boolVal.getD default).values.length, none)
    else if el.doubleVal.isSome then ((el.doubleVal.getD default).values.length, none)
    else if el.stringVal.isSome then ((el.stringVal.getD default).values.length, none)
    else (-1, some CursorError.unrecognizedColumn)

/-- hive.go `parseResults`: install the batch, reset the row cursor,
compute `totalRows`; an empty batch (no new data) finishes the stream. -/
def parseResults (c : CursorState) (response : TFetchResultsResp) :
    Option CursorError × CursorState :=
  let queue := response.columns
  let totalRows := (getTotalRows queue).1
  let err := (getTotalRows queue).2
  let c := { c with queue := queue, columnIndex := 0, totalRows := totalRows,
                    newData := totalRows > 0 }
  let c := if c.newData = false then { c with state := CState.finished } else c
  (err, c)

/-! ## Fetch loop (hive.go `pollUntilData`, `HasMore`, `fetchIfEmpty`)

`pollUntilData` runs its fetch loop on a worker goroutine.  The loop body
either surfaces an error (RPC failure, non-SUCCESS status, or a parse
error — and `getTotalRows` errors on every batch with an empty column
list) or returns because the parsed column list is non-empty, so with a
context that never fires the loop performs exactly one fetch; the model
below is that single iteration, with the provably dead repeat branch
returning a marker error. -/

def pollUntilData (c : CursorState) (srv : Server) (n : Nat) :
    Option CursorError × CursorState × Server :=
  let responseFetch := srv.resps srv.idx
  let srv := { srv with idx := srv.idx + 1 }
  let c := { c with responseSet := true }
  if (safeStatus responseFetch.status).statusCode ≠ TStatusCode.success then
    (some (CursorError.fetchStatus (safeStatus responseFetch.status).statusCode), c, srv)
  else
    let pr := parseResults c responseFetch
    match pr.1 with
    | some e => (some e, pr.2, srv)
    | none =>
      if pr.2.queue.length > 0 then
        if pr.2.queue.length < n then
          (some (CursorError.tooFewRows pr.2.queue.length), pr.2, srv)
        else (none, pr.2, srv)
      else
        -- dead: `parseResults` only returns no error when the column list
        -- is non-empty; Go would sleep and fetch again
        (some CursorError.allColumnsEmpty, pr.2, srv)

/-- The boolean `HasMore` computes on the way out:
`c.state != _FINISHED || c.totalRows != c.columnIndex`. -/
def resultOf (c : CursorState) : Bool :=
  decide (c.state ≠ CState.finished) || decide (c.totalRows ≠ (c.columnIndex : Int))

/-- hive.go `HasMore`. -/
def hasMore (c : CursorState) (srv : Server) : Bool × CursorState × Server :=
  let c := { c with err := none }
  if c.responseSet = false ∧ c.state ≠ CState.finished then
    let p := pollUntilData c srv 1
    let c := { p.2.1 with err := p.1 }
    (resultOf c, c, p.2.2)
  else
    if c.totalRows = (c.columnIndex : Int) ∧ c.state ≠ CState.finished then
      let p := pollUntilData c srv 1
      let c := { p.2.1 with err := p.1 }
      (resultOf c, c, p.2.2)
    else
      (resultOf c, c, srv)

/-- hive.go `fetchIfEmpty`: when the batch is consumed, drop the queue and
ask `HasMore`; a false answer is "No more rows are left". -/
def fetchIfEmpty (c : CursorState) (srv : Server) : CursorState × Server :=
  let c := { c with err := none }
  if c.totalRows = (c.columnIndex : Int) then
    let c := { c with queue := [] }
    let p := hasMore c srv
    if p.1 = false then ({ p.2.1 with err := some CursorError.noMoreRows }, p.2.2)
    else (p.2.1, p.2.2)
  else (c, srv)

/-! ## C10: only the first column determines `totalRows` -/

/-- Some arm of the `TColumn` union is set (every server-sent column). -/
def columnPopulated (col : TColumn) : Bool :=
  col.binaryVal.isSome || col.byteVal.isSome || col.i16Val.isSome ||
    col.i32Val.isSome || col.i64Val.isSome || col.boolVal.isSome ||
    col.doubleVal.isSome || col.stringVal.isSome

/-- Shorthand for a single-column INT batch used by concrete witnesses. -/
def colI32 (vals : List Int) : TColumn :=
  { i32Val := some { values := vals, nulls := [] } }

/-- C10: `getTotalRows` inspects only the first column — replacing the tail
by anything changes nothing — and a populated first column yields no
error, so a batch whose later columns are shorter than the first is
accepted. -/
theorem getTotalRows_first_column_only (c : TColumn) (rest rest' : List TColumn)
    (h : columnPopulated c = true) :
    getTotalRows (c :: rest) = getTotalRows (c :: rest') ∧
      (getTotalRows (c :: rest)).2 = none := by
  refine ⟨rfl, ?_⟩
  simp only [getTotalRows]
  split_ifs <;> simp_all [columnPopulated]

/-- Witness for C10: a two-row INT first column next to an empty second
column is accepted, with the tail never inspected. -/
theorem getTotalRows_first_column_only_witness :
    columnPopulated (colI32 [1, 2]) = true ∧
      (getTotalRows (colI32 [1, 2] :: [colI32 []]) = getTotalRows [colI32 [1, 2]] ∧
        (getTotalRows (colI32 [1, 2] :: [colI32 []])).2 = none) :=
  ⟨by decide, getTotalRows_first_column_only (colI32 [1, 2]) [colI32 []] [] (by decide)⟩

/-! ## C3: `HasMore` is idempotent

The invariant: once `HasMore` has answered, the cursor either has a
response installed or a finished stream, and either unread rows or a
finished stream — exactly the configuration in which a further `HasMore`
does not poll and recomputes the same boolean. -/

def HasMoreStable (c : CursorState) : Prop :=
  (c.responseSet = true ∨ c.state = CState.finished) ∧
    (c.totalRows ≠ (c.columnIndex : Int) ∨ c.state = CState.finished)

/-- After `parseResults`, either the stream was marked finished (no new
data) or there are unread rows with the row cursor reset. -/
theorem parseResults_post (c : CursorState) (resp : TFetchResultsResp) :
    (parseResults c resp).2.state = CState.finished ∨
      (0 < (parseResults c resp).2.totalRows ∧ (parseResults c resp).2.columnIndex = 0) := by
  unfold parseResults
  by_cases h : (0 : Int) < (getTotalRows resp.columns).1
  · right
    simp [gt_iff_lt, h]
  · left
    simp [gt_iff_lt, h]

/-- `parseResults` does not touch the `response` pointer. -/
theorem parseResults_responseSet (c : CursorState) (resp : TFetchResultsResp) :
    (parseResults c resp).2.responseSet = c.responseSet := by
  unfold parseResults
  by_cases h : (0 : Int) < (getTotalRows resp.columns).1 <;> simp [gt_iff_lt, h]

/-- `parseResults` on a cursor with an installed response lands in the
stable configuration. -/
theorem parseResults_stable (c : CursorState) (resp : TFetchResultsResp)
    (hrs : c.responseSet = true) :
    HasMoreStable (parseResults c resp).2 := by
  constructor
  · left
    rw [parseResults_responseSet]
    exact hrs
  · rcases parseResults_post c resp with h | ⟨h1, h2⟩
    · right; exact h
    · left
      rw [h2]
      intro hcontra
      rw [hcontra] at h1
      simp at h1

/-- With an all-success server, one `pollUntilData` leaves the cursor in
the stable configuration and only advances the server's RPC counter. -/
theorem pollUntilData_post (c : CursorState) (srv : Server) (n : Nat)
    (hgood : goodServer srv) :
    HasMoreStable (pollUntilData c srv n).2.1 ∧
      (pollUntilData c srv n).2.2.resps = srv.resps := by
  have hs := hgood srv.idx
  have hstable : HasMoreStable
      (parseResults { c with responseSet := true } (srv.resps srv.idx)).2 :=
    parseResults_stable _ _ rfl
  unfold pollUntilData
  simp only [hs, ne_eq, not_true_eq_false, if_false]
  cases hpr : (parseResults { c with responseSet := true } (srv.resps srv.idx)).1 with
  | some e =>
    simp only [hpr]
    exact ⟨hstable, by trivial⟩
  | none =>
    simp only [hpr]
    split_ifs <;> exact ⟨hstable, by trivial⟩

/-- One `HasMore` call against an all-success server: the cursor lands in
the stable configuration, the server stream is merely advanced, and the
returned boolean is `resultOf` of the final cursor. -/
theorem hasMore_run (c : CursorState) (srv : Server) (hgood : goodServer srv) :
    HasMoreStable (hasMore c srv).2.1 ∧
      (hasMore c srv).2.2.resps = srv.resps ∧
      (hasMore c srv).1 = resultOf (hasMore c srv).2.1 := by
  unfold hasMore
  dsimp only
  split_ifs with h1 h2
  · obtain ⟨hst, hre⟩ := pollUntilData_post { c with err := none } srv 1 hgood
    exact ⟨hst, hre, rfl⟩
  · obtain ⟨hst, hre⟩ := pollUntilData_post { c with err := none } srv 1 hgood
    exact ⟨hst, hre, rfl⟩
  · refine ⟨⟨?_, ?_⟩, rfl, rfl⟩
    · by_cases hr : c.responseSet = true
      · exact Or.inl hr
      · right
        by_cases hf : c.state = CState.finished
        · exact hf
        · exact absurd ⟨by simpa using hr, hf⟩ h1
    · by_cases ht : c.totalRows = (c.columnIndex : Int)
      · right
        by_cases hf : c.state = CState.finished
        · exact hf
        · exact absurd ⟨ht, hf⟩ h2
      · exact Or.inl ht

/-- A cursor already in the stable configuration makes `HasMore` a pure
read: no poll, the error slot is cleared, everything else untouched. -/
theorem hasMore_no_poll (c : CursorState) (srv : Server) (h : HasMoreStable c) :
    hasMore c srv = (resultOf c, { c with err := none }, srv) := by
  have hc1 : ¬(c.responseSet = false ∧ ¬c.state = CState.finished) := by
    rcases h.1 with h1 | h1
    · intro hc
      rw [h1] at hc
      exact absurd hc.1 (by simp)
    · intro hc
      exact hc.2 h1
  have hc2 : ¬(c.totalRows = (c.columnIndex : Int) ∧ ¬c.state = CState.finished) := by
    rcases h.2 with h2 | h2
    · intro hc
      exact h2 hc.1
    · intro hc
      exact hc.2 h2
  unfold hasMore
  dsimp only
  rw [if_neg hc1, if_neg hc2]
  rfl

/-- `n + 1` consecutive `HasMore` calls with nothing interleaved. -/
def hasMoreN : Nat → CursorState → Server → Bool × CursorState × Server
  | 0, c, srv => hasMore c srv
  | n + 1, c, srv =>
    let p := hasMoreN n c srv
    hasMore p.2.1 p.2.2

/-- Invariant carried across consecutive `HasMore` calls. -/
theorem hasMoreN_inv (n : Nat) (c : CursorState) (srv : Server)
    (hgood : goodServer srv) :
    HasMoreStable (hasMoreN n c srv).2.1 ∧
      (hasMoreN n c srv).2.2.resps = srv.resps ∧
      (hasMoreN n c srv).1 = resultOf (hasMoreN n c srv).2.1 ∧
      (hasMoreN n c srv).1 = (hasMore c srv).1 := by
  induction n with
  | zero =>
    obtain ⟨a, b, r⟩ := hasMore_run c srv hgood
    exact ⟨a, b, r, rfl⟩
  | succ n ih =>
    obtain ⟨hst, hre, hres, hbase⟩ := ih
    have hnp := hasMore_no_poll (hasMoreN n c srv).2.1 (hasMoreN n c srv).2.2 hst
    simp only [hasMoreN]
    rw [hnp]
    refine ⟨hst, hre, rfl, ?_⟩
    dsimp only
    rw [← hres, hbase]

/-- C3: `HasMore` is idempotent — with an all-success server and no
interleaved row consumption, the `(n+1)`-st consecutive call returns the
same boolean as the first, from any cursor state (in particular from any
state reached by a successful execute). -/
theorem hasMore_idempotent (n : Nat) (c : CursorState) (srv : Server)
    (hgood : goodServer srv) :
    (hasMoreN n c srv).1 = (hasMoreN 0 c srv).1 :=
  (hasMoreN_inv n c srv hgood).2.2.2

/-- A scripted all-success response whose single column is an INT vector. -/
def respI32 (vals : List Int) : TFetchResultsResp :=
  { status := some { statusCode := TStatusCode.success }, columns := [colI32 vals] }

/-- A server that always answers with a one-row INT batch. -/
def srvOneRow : Server :=
  { resps := fun _ => respI32 [7], idx := 0 }

/-- Witness for C3: ten consecutive `HasMore` calls on a fresh cursor
against a live server agree with the first. -/
theorem hasMore_idempotent_witness :
    goodServer srvOneRow ∧
      (hasMoreN 9 {} srvOneRow).1 = (hasMoreN 0 {} srvOneRow).1 :=
  ⟨fun _ => rfl, hasMore_idempotent 9 {} srvOneRow (fun _ => rfl)⟩

/-! ## FetchOne (hive.go `FetchOne`)

Destinations are modelled by what the caller's pointer holds before and
after the row is bound: `interfaceNil` is a nil `interface{}` entry,
`xPtr v` a typed pointer `*T` whose pointee is `v`, `xPtrPtr o` a typed
double pointer `**T` whose inner pointer is nil (`none`) or allocated
with pointee `v` (`some v`), `materialized` the raw value the code
assigns into a nil destination slot. -/

/-- A raw column value as materialized into a nil destination. -/
inductive RawValue where
  | binary (v : List Nat)
  | byte (v : Int)
  | i16 (v : Int)
  | i32 (v : Int)
  | i64 (v : Int)
  | str (v : String)
  | double (v : Nat)
  | bool (v : Bool)
deriving DecidableEq, Repr

/-- A `FetchOne` destination (an entry of the variadic `dests`). -/
inductive Dest where
  | interfaceNil
  | binaryPtr (v : Option (List Nat))   -- a *[]byte pointee; `none` is the nil slice
  | bytePtr (v : Int)
  | bytePtrPtr (v : Option Int)
  | i16Ptr (v : Int)
  | i16PtrPtr (v : Option Int)
  | i32Ptr (v : Int)
  | i32PtrPtr (v : Option Int)
  | i64Ptr (v : Int)
  | i64PtrPtr (v : Option Int)
  | stringPtr (v : String)
  | stringPtrPtr (v : Option String)
  | doublePtr (v : Nat)
  | doublePtrPtr (v : Option Nat)
  | boolPtr (v : Bool)
  | boolPtrPtr (v : Option Bool)
  | materialized (v : RawValue)
deriving DecidableEq, Repr

/-- Which value vector `FetchOne` dispatches on, in the source's `IsSetX`
order: binary, byte, i16, i32, i64, string, double, bool. -/
inductive ColKind where
  | binary
  | byte
  | i16
  | i32
  | i64
  | str
  | double
  | bool
deriving DecidableEq, Repr

/-- First set arm of the union, in `FetchOne`'s dispatch order;
`none` is the "Empty column" case. -/
def colKind (col : TColumn) : Option ColKind :=
  if col.binaryVal.isSome then some ColKind.binary
  else if col.byteVal.isSome then some ColKind.byte
  else if col.i16Val.isSome then some ColKind.i16
  else if col.i32Val.isSome then some ColKind.i32
  else if col.i64Val.isSome then some ColKind.i64
  else if col.stringVal.isSome then some ColKind.str
  else if col.doubleVal.isSome then some ColKind.double
  else if col.boolVal.isSome then some ColKind.bool
  else none

/-- Which destinations the type switches of `FetchOne` accept for a
column of the given kind (nil destinations are always accepted; binary
columns accept only `*[]byte`, the others `*T` or `**T`). -/
def destAccepted (k : ColKind) (d : Dest) : Bool :=
  match k, d with
  | _, Dest.interfaceNil => true
  | ColKind.binary, Dest.binaryPtr _ => true
  | ColKind.byte, Dest.bytePtr _ => true
  | ColKind.byte, Dest.bytePtrPtr _ => true
  | ColKind.i16, Dest.i16Ptr _ => true
  | ColKind.i16, Dest.i16PtrPtr _ => true
  | ColKind.i32, Dest.i32Ptr _ => true
  | ColKind.i32, Dest.i32PtrPtr _ => true
  | ColKind.i64, Dest.i64Ptr _ => true
  | ColKind.i64, Dest.i64PtrPtr _ => true
  | ColKind.str, Dest.stringPtr _ => true
  | ColKind.str, Dest.stringPtrPtr _ => true
  | ColKind.double, Dest.doublePtr _ => true
  | ColKind.double, Dest.doublePtrPtr _ => true
  | ColKind.bool, Dest.boolPtr _ => true
  | ColKind.bool, Dest.boolPtrPtr _ => true
  | _, _ => false

/-- Binding of column `i`'s value at row `idx` into one destination,
following the per-kind blocks of `FetchOne` (values are read with a
default out-of-range element like Go's would-panic access never being
exercised by the claims): a nil destination materializes the raw value;
a `*T` destination is written unconditionally (only `*[]byte` consults
the null bitmap); a `**T` destination becomes nil on null, else is
allocated on demand and written; anything else is the type-mismatch
error carrying the column index. -/
def writeDest (col : TColumn) (idx : Nat) (i : Nat) (d : Dest) :
    Except CursorError Dest :=
  match colKind col with
  | none => Except.error (CursorError.emptyColumn i)
  | some ColKind.binary =>
    let cd := col.binaryVal.getD default
    match d with
    | Dest.interfaceNil => Except.ok (Dest.materialized (RawValue.binary (cd.values.getD idx [])))
    | Dest.binaryPtr _ =>
      if isNull cd.nulls idx then Except.ok (Dest.binaryPtr none)
      else Except.ok (Dest.binaryPtr (some (cd.values.getD idx [])))
    | _ => Except.error (CursorError.typeMismatch i)
  | some ColKind.byte =>
    let cd := col.byteVal.getD default
    match d with
    | Dest.interfaceNil => Except.ok (Dest.materialized (RawValue.byte (cd.values.getD idx 0)))
    | Dest.bytePtr _ => Except.ok (Dest.bytePtr (cd.values.getD idx 0))
    | Dest.bytePtrPtr _ =>
      if isNull cd.nulls idx then Except.ok (Dest.bytePtrPtr none)
      else Except.ok (Dest.bytePtrPtr (some (cd.values.getD idx 0)))
    | _ => Except.error (CursorError.typeMismatch i)
  | some ColKind.i16 =>
    let cd := col.i16Val.getD default
    match d with
    | Dest.interfaceNil => Except.ok (Dest.materialized (RawValue.i16 (cd.values.getD idx 0)))
    | Dest.i16Ptr _ => Except.ok (Dest.i16Ptr (cd.values.getD idx 0))
    | Dest.i16PtrPtr _ =>
      if isNull cd.nulls idx then Except.ok (Dest.i16PtrPtr none)
      else Except.ok (Dest.i16PtrPtr (some (cd.values.getD idx 0)))
    | _ => Except.error (CursorError.typeMismatch i)
  | some ColKind.i32 =>
    let cd := col.i32Val.getD default
    match d with
    | Dest.interfaceNil => Except.ok (Dest.materialized (RawValue.i32 (cd.values.getD idx 0)))
    | Dest.i32Ptr _ => Except.ok (Dest.i32Ptr (cd.values.getD idx 0))
    | Dest.i32PtrPtr _ =>
      if isNull cd.nulls idx then Except.ok (Dest.i32PtrPtr none)
      else Except.ok (Dest.i32PtrPtr (some (cd.values.getD idx 0)))
    | _ => Except.error (CursorError.typeMismatch i)
  | some ColKind.i64 =>
    let cd := col.i64Val.getD default
    match d with
    | Dest.interfaceNil => Except.ok (Dest.materialized (RawValue.i64 (cd.values.getD idx 0)))
    | Dest.i64Ptr _ => Except.ok (Dest.i64Ptr (cd.values.getD idx 0))
    | Dest.i64PtrPtr _ =>
      if isNull cd.nulls idx then Except.ok (Dest.i64PtrPtr none)
      else Except.ok (Dest.i64PtrPtr (some (cd.values.getD idx 0)))
    | _ => Except.error (CursorError.typeMismatch i)
  | some ColKind.str =>
    let cd := col.stringVal.getD default
    match d with
    | Dest.interfaceNil => Except.ok (Dest.materialized (RawValue.str (cd.values.getD idx "")))
    | Dest.stringPtr _ => Except.ok (Dest.stringPtr (cd.values.getD idx ""))
    | Dest.stringPtrPtr _ =>
      if isNull cd.nulls idx then Except.ok (Dest.stringPtrPtr none)
      else Except.ok (Dest.stringPtrPtr (some (cd.values.getD idx "")))
    | _ => Except.error (CursorError.typeMismatch i)
  | some ColKind.double =>
    let cd := col.doubleVal.getD default
    match d with
    | Dest.interfaceNil => Except.ok (Dest.materialized (RawValue.double (cd.values.getD idx 0)))
    | Dest.doublePtr _ => Except.ok (Dest.doublePtr (cd.values.getD idx 0))
    | Dest.doublePtrPtr _ =>
      if isNull cd.nulls idx then Except.ok (Dest.doublePtrPtr none)
      else Except.ok (Dest.doublePtrPtr (some (cd.values.getD idx 0)))
    | _ => Except.error (CursorError.typeMismatch i)
  | some ColKind.bool =>
    let cd := col.boolVal.getD default
    match d with
    | Dest.interfaceNil => Except.ok (Dest.materialized (RawValue.bool (cd.values.getD idx false)))
    | Dest.boolPtr _ => Except.ok (Dest.boolPtr (cd.values.getD idx false))
    | Dest.boolPtrPtr _ =>
      if isNull cd.nulls idx then Except.ok (Dest.boolPtrPtr none)
      else Except.ok (Dest.boolPtrPtr (some (cd.values.getD idx false)))
    | _ => Except.error (CursorError.typeMismatch i)

/-- The `for i := 0; i < len(c.queue); i++` loop of `FetchOne`: binds
column after column; on the first error it stops, keeping the writes
already made; `i` is the running column index. -/
def fetchLoop : List TColumn → List Dest → Nat → Nat →
    Option CursorError × List Dest
  | [], ds, _, _ => (none, ds)
  | _ :: _, [], _, _ => (none, [])
  | col :: cols, d :: ds, idx, i =>
    match writeDest col idx i d with
    | Except.error e => (some e, d :: ds)
    | Except.ok d₂ =>
      let rest := fetchLoop cols ds idx (i + 1)
      (rest.1, d₂ :: rest.2)

/-- hive.go `FetchOne`: clear the error, ensure a batch, check the
argument count, bind each column, and advance `columnIndex` only when
every column bound. -/
def fetchOne (c : CursorState) (srv : Server) (dests : List Dest) :
    CursorState × Server × List Dest :=
  let c := { c with err := none }
  let pf := fetchIfEmpty c srv
  if pf.1.err.isSome then (pf.1, pf.2, dests)
  else if pf.1.queue.length ≠ dests.length then
    ({ pf.1 with err := some (CursorError.argCount dests.length pf.1.queue.length) },
      pf.2, dests)
  else
    let lr := fetchLoop pf.1.queue dests pf.1.columnIndex 0
    match lr.1 with
    | some e => ({ pf.1 with err := some e }, pf.2, lr.2)
    | none => ({ pf.1 with columnIndex := pf.1.columnIndex + 1 }, pf.2, lr.2)

/-- `n` consecutive `FetchOne` calls with the same (threaded) arguments. -/
def fetchOneIter : Nat → CursorState × Server × List Dest →
    CursorState × Server × List Dest
  | 0, x => x
  | n + 1, (c, srv, ds) => fetchOneIter n (fetchOne c srv ds)

/-! ## C2: exhausted cursor fails with "No more rows are left" -/

/-- On a consumed batch with a finished stream, `FetchOne` does not poll:
it drops the queue and stores the no-more-rows error, leaving everything
else (in particular `columnIndex`, `totalRows` and the finished state)
unchanged. -/
theorem fetchOne_exhausted (c : CursorState) (srv : Server) (dests : List Dest)
    (hstate : c.state = CState.finished)
    (hdone : c.totalRows = (c.columnIndex : Int)) :
    fetchOne c srv dests =
      ({ c with queue := [], err := some CursorError.noMoreRows }, srv, dests) := by
  have hsfin : ¬(c.responseSet = false ∧ ¬c.state = CState.finished) := by
    intro hc
    exact hc.2 hstate
  have htfin : ¬(c.totalRows = (c.columnIndex : Int) ∧ ¬c.state = CState.finished) := by
    intro hc
    exact hc.2 hstate
  unfold fetchOne fetchIfEmpty hasMore
  dsimp only
  rw [if_pos hdone, if_neg hsfin, if_neg htfin]
  simp [resultOf, hstate, hdone]

/-- C2: a cursor whose batch is fully consumed (`columnIndex = totalRows`)
on a finished stream fails every following `FetchOne` — the `(k+1)`-st
consecutive call included — with exactly the error message
"No more rows are left". -/
theorem fetchOne_no_more_rows (c : CursorState) (srv : Server) (dests : List Dest)
    (k : Nat) (hstate : c.state = CState.finished)
    (hdone : c.totalRows = (c.columnIndex : Int)) :
    (fetchOneIter (k + 1) (c, srv, dests)).1.err = some CursorError.noMoreRows ∧
      CursorError.message CursorError.noMoreRows = "No more rows are left" := by
  refine ⟨?_, rfl⟩
  induction k generalizing c srv dests with
  | zero =>
    rw [show fetchOneIter 1 (c, srv, dests) = fetchOne c srv dests from rfl,
      fetchOne_exhausted c srv dests hstate hdone]
  | succ k ih =>
    rw [show fetchOneIter (k + 2) (c, srv, dests)
          = fetchOneIter (k + 1) (fetchOne c srv dests) from rfl,
      fetchOne_exhausted c srv dests hstate hdone]
    exact ih _ _ _ hstate hdone

/-- Witness for C2: three consecutive `FetchOne` calls on an exhausted
cursor all fail with the fixed message. -/
theorem fetchOne_no_more_rows_witness :
    ({ state := CState.finished } : CursorState).state = CState.finished ∧
      ({ state := CState.finished } : CursorState).totalRows =
        ((({ state := CState.finished } : CursorState).columnIndex : Int)) ∧
      (fetchOneIter 3 ({ state := CState.finished }, srvOneRow, [])).1.err =
          some CursorError.noMoreRows ∧
      CursorError.message CursorError.noMoreRows = "No more rows are left" :=
  ⟨rfl, rfl,
    fetchOne_no_more_rows { state := CState.finished } srvOneRow [] 2 rfl rfl⟩

/-! ## C7: type mismatch aborts the row without advancing `columnIndex` -/

/-- The destination's type matches the populated value vector of the
column (nil interface destinations and unpopulated columns trigger no
type check). -/
def destTypeMatches (col : TColumn) (d : Dest) : Bool :=
  match colKind col with
  | none => true
  | some k => destAccepted k d

/-- Some positionally paired destination mismatches its column's type. -/
def anyMismatch : List TColumn → List Dest → Bool
  | [], _ => false
  | _ :: _, [] => false
  | col :: cols, d :: ds => (!destTypeMatches col d) || anyMismatch cols ds

/-- Every column of the batch has a populated value vector. -/
def allPopulated (cols : List TColumn) : Bool :=
  cols.all (fun col => (colKind col).isSome)

/-- An accepted destination is always bound without error. -/
theorem writeDest_ok (col : TColumn) (idx i : Nat) (d : Dest) (k : ColKind)
    (hk : colKind col = some k) (hacc : destAccepted k d = true) :
    ∃ d₂, writeDest col idx i d = Except.ok d₂ := by
  unfold writeDest
  rw [hk]
  cases k <;> cases d <;> simp_all [destAccepted] <;> split_ifs <;> simp

/-- A rejected destination for a populated column is exactly the
type-mismatch error at that column index. -/
theorem writeDest_mismatch (col : TColumn) (idx i : Nat) (d : Dest) (k : ColKind)
    (hk : colKind col = some k) (hacc : destAccepted k d = false) :
    writeDest col idx i d = Except.error (CursorError.typeMismatch i) := by
  unfold writeDest
  rw [hk]
  cases k <;> cases d <;> simp_all [destAccepted]

/-- The binding loop over an all-populated batch with some mismatching
destination stops with a type-mismatch error. -/
theorem fetchLoop_mismatch (cols : List TColumn) (ds : List Dest) (idx i : Nat)
    (hpop : allPopulated cols = true) (hmm : anyMismatch cols ds = true) :
    ∃ j, (fetchLoop cols ds idx i).1 = some (CursorError.typeMismatch j) := by
  induction cols generalizing ds i with
  | nil => exact absurd hmm (by simp [anyMismatch])
  | cons col cols ih =>
    cases ds with
    | nil => exact absurd hmm (by simp [anyMismatch])
    | cons d ds =>
      rw [allPopulated, List.all_cons, Bool.and_eq_true] at hpop
      obtain ⟨hk1, hpop₂⟩ := hpop
      obtain ⟨k, hk⟩ := Option.isSome_iff_exists.mp hk1
      by_cases hacc : destAccepted k d = true
      · obtain ⟨d₂, hwd⟩ := writeDest_ok col idx i d k hk hacc
        have hmm₂ : anyMismatch cols ds = true := by
          rw [anyMismatch, Bool.or_eq_true] at hmm
          rcases hmm with hmm | hmm
          · simp [destTypeMatches, hk, hacc] at hmm
          · exact hmm
        obtain ⟨j, hj⟩ := ih ds (i + 1) hpop₂ hmm₂
        refine ⟨j, ?_⟩
        simp only [fetchLoop, hwd]
        exact hj
      · have hwd := writeDest_mismatch col idx i d k hk (by simpa using hacc)
        refine ⟨i, ?_⟩
        simp only [fetchLoop, hwd]

/-- C7: when some destination's type does not match the populated value
vector of its column (batch loaded, argument count right), `FetchOne`
stores a type-mismatch error and returns without advancing
`columnIndex`. -/
theorem fetchOne_type_mismatch (c : CursorState) (srv : Server) (dests : List Dest)
    (hrows : c.totalRows ≠ (c.columnIndex : Int))
    (hlen : c.queue.length = dests.length)
    (hpop : allPopulated c.queue = true)
    (hmm : anyMismatch c.queue dests = true) :
    ∃ j, (fetchOne c srv dests).1.err = some (CursorError.typeMismatch j) ∧
      (fetchOne c srv dests).1.columnIndex = c.columnIndex := by
  obtain ⟨j, hj⟩ := fetchLoop_mismatch c.queue dests c.columnIndex 0 hpop hmm
  unfold fetchOne fetchIfEmpty
  dsimp only
  rw [if_neg hrows]
  split_ifs with h1 h2
  · simp at h1
  · exact absurd hlen h2
  · refine ⟨j, ?_, ?_⟩ <;> rw [hj]

/-- A loaded one-row INT batch paired with a boolean destination. -/
def cursorIntBatch : CursorState :=
  { queue := [colI32 [5]], totalRows := 1, columnIndex := 0,
    state := CState.asyncEnded, responseSet := true }

/-- Witness for C7: binding an INT column into a `*bool` destination
fails with the mismatch error and leaves `columnIndex` at 0. -/
theorem fetchOne_type_mismatch_witness :
    (cursorIntBatch.totalRows ≠ (cursorIntBatch.columnIndex : Int) ∧
      cursorIntBatch.queue.length = [Dest.boolPtr false].length ∧
      allPopulated cursorIntBatch.queue = true ∧
      anyMismatch cursorIntBatch.queue [Dest.boolPtr false] = true) ∧
    ∃ j, (fetchOne cursorIntBatch srvOneRow [Dest.boolPtr false]).1.err =
        some (CursorError.typeMismatch j) ∧
      (fetchOne cursorIntBatch srvOneRow [Dest.boolPtr false]).1.columnIndex =
        cursorIntBatch.columnIndex :=
  ⟨⟨by decide, rfl, by decide, by decide⟩,
    fetchOne_type_mismatch cursorIntBatch srvOneRow [Dest.boolPtr false]
      (by decide) rfl (by decide) (by decide)⟩

/-! ## Execute (hive.go `executeAsync`) — C4 -/

/-- TExecuteStatementResp: status plus optional operation handle. -/
structure TExecuteStatementResp where
  status : Option TStatus
  operationHandle : Option TOperationHandle := none
deriving DecidableEq, Repr

/-- The in-memory part of hive.go `resetState` (the `CloseOperation`
RPC it may also issue returns an error that `executeAsync` discards). -/
def resetStateMem (c : CursorState) : CursorState :=
  { c with responseSet := false, err := none, queue := [], columnIndex := 0,
           totalRows := 0, state := CState.noneState, description := [],
           newData := false, operationHandle := none }

/-- Go `strings.Contains` (the pattern used below is non-empty). -/
def containsSub (s pat : String) : Bool :=
  (s.splitOn pat).length != 1

/-- `responseExecute.OperationHandle.HasResultSet`; the Go code would
fault on a nil handle (the success path never carries one in practice). -/
def handleHasResultSet : Option TOperationHandle → Bool
  | none => false
  | some h => h.hasResultSet

/-- hive.go `executeAsync`, with the `ExecuteStatement` RPC outcome as an
explicit input; a failed RPC carries no response, so the transient
`_CONTEXT_DONE` tag of the deadline branch is immediately overwritten
with `_ERROR` (the `responseExecute != nil` arm is the thrift oddity the
source comments on and is unreachable here). -/
def executeAsync (c : CursorState)
    (rpc : Except String TExecuteStatementResp) : CursorState :=
  let c := resetStateMem c
  let c := { c with state := CState.running }
  match rpc with
  | Except.error e =>
    let c := { c with err := some (CursorError.rpcError e) }
    if containsSub e "context deadline exceeded" then
      { c with state := CState.errorState }
    else c
  | Except.ok responseExecute =>
    if success (safeStatus responseExecute.status) = false then
      { c with err := some (CursorError.hiveError
          (safeStatus responseExecute.status).getErrorMessage
          (safeStatus responseExecute.status).getErrorCode) }
    else
      let c := { c with operationHandle := responseExecute.operationHandle }
      if handleHasResultSet responseExecute.operationHandle = false then
        { c with state := CState.finished }
      else c

/-- C4: when the `ExecuteStatement` RPC succeeds, the cursor's error slot
ends up empty on a success status, and on any other status it holds a
`HiveError` whose `Message` is the status's error message and whose
`ErrorCode` is the status's integer error code. -/
theorem executeAsync_hive_error (c : CursorState) (resp : TExecuteStatementResp) :
    (executeAsync c (Except.ok resp)).err =
      if success (safeStatus resp.status) then none
      else some (CursorError.hiveError (safeStatus resp.status).getErrorMessage
        (safeStatus resp.status).getErrorCode) := by
  unfold executeAsync
  dsimp only
  by_cases h : success (safeStatus resp.status) = true
  · rw [if_pos h, if_neg (show ¬success (safeStatus resp.status) = false by simp [h])]
    split_ifs <;> rfl
  · have h₂ : success (safeStatus resp.status) = false := by simpa using h
    rw [if_neg h, if_pos h₂]

/-! ## WaitForCompletion (hive.go) — C5 -/

/-- TGetOperationStatusResp: the fields `WaitForCompletion` reads.  The
operation state is a nil-able pointer in thrift, but the code dereferences
it unconditionally, so it is a plain field here. -/
structure TGetOperationStatusResp where
  status : Option TStatus
  operationState : TOperationState
  taskStatus : Option String := none
  errorMessage : Option String := none
deriving DecidableEq, Repr

/-- The thrift String() name of an operation state, as printed by the %v
verb of the synthesized message. -/
def TOperationState.goName : TOperationState → String
  | TOperationState.initial => "INITIALIZED_STATE"
  | TOperationState.running => "RUNNING_STATE"
  | TOperationState.finished => "FINISHED_STATE"
  | TOperationState.canceled => "CANCELED_STATE"
  | TOperationState.closed => "CLOSED_STATE"
  | TOperationState.errorState => "ERROR_STATE"
  | TOperationState.unknown => "UKNOWN_STATE"
  | TOperationState.pending => "PENDING_STATE"
  | TOperationState.timedout => "TIMEDOUT_STATE"

/-- The synthesized placeholder of hive.go line 527. -/
def placeholderMessage (st : TOperationState) : String :=
  "gohive: operation in state (" ++ st.goName ++ ") without task status or error message"

/-- hive.go lines 519-529: the message chosen for a terminal
non-FINISHED operation, exactly as the source computes it. -/
def terminalErrorMessage (operationStatus : TGetOperationStatusResp) : String :=
  let msg := operationStatus.taskStatus
  let msg := match msg with
    | none => operationStatus.errorMessage
    | some t => if t = "[]" then operationStatus.errorMessage else some t
  let msg := match operationStatus.status with
    | some s => if msg = none then s.errorMessage else msg
    | none => msg
  match msg with
  | some m => m
  | none => placeholderMessage operationStatus.operationState

/-- The specification's preference order, written from its words: prefer
`task_status` unless it is nil or the string "[]"; otherwise
`error_message`; otherwise the nested status's error message; otherwise
the synthesized placeholder. -/
def specFallbackMessage (r : TGetOperationStatusResp) : String :=
  match r.errorMessage with
  | some m => m
  | none =>
    match r.status with
    | some s =>
      match s.errorMessage with
      | some m => m
      | none => placeholderMessage r.operationState
    | none => placeholderMessage r.operationState

/-- Spec-side selection, top level: `task_status` first. -/
def specPreferredMessage (r : TGetOperationStatusResp) : String :=
  match r.taskStatus with
  | some t => if t = "[]" then specFallbackMessage r else t
  | none => specFallbackMessage r

/-- hive.go `Poll(true)`: the RPC outcome checked against a success
status (the `pollRequest` plumbing carries no state). -/
def pollStep (rpc : Except String TGetOperationStatusResp) :
    Except CursorError TGetOperationStatusResp :=
  match rpc with
  | Except.error e => Except.error (CursorError.rpcError e)
  | Except.ok r =>
    if success (safeStatus r.status) = false then
      Except.error (CursorError.pollStatus (safeStatus r.status).statusCode)
    else Except.ok r

/-- hive.go `WaitForCompletion` with the successive `GetOperationStatus`
RPC outcomes scripted; no log channel is attached and the context never
fires (the watcher goroutine and the sleep are inert).  An exhausted
script returns the cursor as is (the real loop would poll again). -/
def waitForCompletion (c : CursorState)
    (polls : List (Except String TGetOperationStatusResp)) : CursorState :=
  match polls with
  | [] => c
  | rpc :: rest =>
    let c := { c with err := none }
    match pollStep rpc with
    | Except.error e => { c with err := some e }
    | Except.ok operationStatus =>
      if ¬(operationStatus.operationState = TOperationState.initial ∨
          operationStatus.operationState = TOperationState.running ∨
          operationStatus.operationState = TOperationState.pending) then
        if operationStatus.operationState ≠ TOperationState.finished then
          { c with err := some (CursorError.operationFailed
              (terminalErrorMessage operationStatus)) }
        else c
      else waitForCompletion c rest

/-- The source's message selection coincides with the specification's
preference order. -/
theorem terminalErrorMessage_eq_spec (r : TGetOperationStatusResp) :
    terminalErrorMessage r = specPreferredMessage r := by
  obtain ⟨st, os, ts, em⟩ := r
  unfold terminalErrorMessage specPreferredMessage specFallbackMessage
  rcases ts with _ | t
  · rcases em with _ | m
    · rcases st with _ | ⟨sc, sem, sec⟩
      · rfl
      · rcases sem with _ | m₂ <;> rfl
    · rcases st with _ | ⟨sc, sem, sec⟩ <;> rfl
  · by_cases ht : t = "[]"
    · subst ht
      rcases em with _ | m
      · rcases st with _ | ⟨sc, sem, sec⟩
        · rfl
        · rcases sem with _ | m₂ <;> rfl
      · rcases st with _ | ⟨sc, sem, sec⟩ <;> rfl
    · rcases em with _ | m <;> rcases st with _ | ⟨sc, sem, sec⟩ <;>
        simp [ht]

/-- C5: when `WaitForCompletion` observes a terminal state other than
FINISHED (through a successful poll), the stored error message follows
the specified preference order: `task_status` unless nil or "[]", then
`error_message`, then the nested status's error message, then the
synthesized placeholder. -/
theorem waitForCompletion_terminal_message (c : CursorState)
    (r : TGetOperationStatusResp)
    (rest : List (Except String TGetOperationStatusResp))
    (hok : success (safeStatus r.status) = true)
    (hterm : ¬(r.operationState = TOperationState.initial ∨
      r.operationState = TOperationState.running ∨
      r.operationState = TOperationState.pending))
    (hnf : r.operationState ≠ TOperationState.finished) :
    (waitForCompletion c (Except.ok r :: rest)).err =
      some (CursorError.operationFailed (specPreferredMessage r)) := by
  unfold waitForCompletion pollStep
  dsimp only
  rw [if_neg (show ¬success (safeStatus r.status) = false by simp [hok])]
  dsimp only
  rw [if_pos hterm, if_pos hnf, terminalErrorMessage_eq_spec]

/-- A successful poll response whose operation ended in ERROR_STATE with
a "[]" task status and a plain error message. -/
def opFailResp : TGetOperationStatusResp :=
  { status := some { statusCode := TStatusCode.success },
    operationState := TOperationState.errorState,
    taskStatus := some "[]",
    errorMessage := some "boom" }

/-- Witness for C5: the "[]" task status is skipped and the error message
"boom" is the one stored. -/
theorem waitForCompletion_terminal_message_witness :
    (success (safeStatus opFailResp.status) = true ∧
      ¬(opFailResp.operationState = TOperationState.initial ∨
        opFailResp.operationState = TOperationState.running ∨
        opFailResp.operationState = TOperationState.pending) ∧
      opFailResp.operationState ≠ TOperationState.finished) ∧
    (waitForCompletion {} [Except.ok opFailResp]).err =
      some (CursorError.operationFailed (specPreferredMessage opFailResp)) :=
  ⟨⟨rfl, by decide, by decide⟩,
    waitForCompletion_terminal_message {} opFailResp [] rfl (by decide) (by decide)⟩

/-! ## Connection.Close (hive.go) — C8 -/

/-- TCloseSessionResp: only its status is read. -/
structure TCloseSessionResp where
  status : Option TStatus
deriving DecidableEq, Repr

/-- The errors `Connection.Close` can return, tagged by origin. -/
inductive CloseError where
  | transport (msg : String)
  | rpc (msg : String)
  | session (code : TStatusCode)
deriving DecidableEq, Repr

/-- hive.go `Connection.Close`: the `CloseSession` RPC runs first and its
outcome is held; then, when `c.transport` is non-nil (`transport = some`),
the transport is closed and its error returned first; then the held RPC
error; then a non-success `CloseSession` status; else nil. -/
def connectionClose (rpcResult : Except String TCloseSessionResp)
    (transport : Option (Except String Unit)) : Option CloseError :=
  match transport with
  | some (Except.error errTransport) => some (CloseError.transport errTransport)
  | _ =>
    match rpcResult with
    | Except.error e => some (CloseError.rpc e)
    | Except.ok responseClose =>
      if success (safeStatus responseClose.status) = false then
        some (CloseError.session (safeStatus responseClose.status).statusCode)
      else none

/-- C8: `Close` issues `CloseSession` then closes the transport; when both
fail the transport error is returned, when exactly one fails that error is
returned (a non-success `CloseSession` status also being an error), and
nil is returned only when both steps succeed. -/
theorem connectionClose_error_precedence (erpc et : String)
    (resp : TCloseSessionResp) :
    connectionClose (Except.error erpc) (some (Except.error et)) =
        some (CloseError.transport et) ∧
      connectionClose (Except.ok resp) (some (Except.error et)) =
        some (CloseError.transport et) ∧
      connectionClose (Except.error erpc) (some (Except.ok ())) =
        some (CloseError.rpc erpc) ∧
      connectionClose (Except.ok resp) (some (Except.ok ())) =
        (if success (safeStatus resp.status) then none
         else some (CloseError.session (safeStatus resp.status).statusCode)) ∧
      (connectionClose (Except.ok resp) (some (Except.ok ())) = none ↔
        success (safeStatus resp.status) = true) := by
  refine ⟨rfl, rfl, rfl, ?_, ?_⟩
  · unfold connectionClose
    by_cases h : success (safeStatus resp.status) = true <;> simp [h]
  · unfold connectionClose
    by_cases h : success (safeStatus resp.status) = true <;> simp [h]

/-! ## innerConnect and the nil-configuration dereference — C9 -/

/-- hive.go `ConnectConfiguration`: function- and pointer-typed fields
(`DialContext`, `TLSConfig`, `HiveConfiguration`) are modelled by whether
they are set; everything else keeps its value. -/
structure ConnectConfiguration where
  username : String := ""
  password : String := ""
  service : String := ""
  hiveConfigurationSet : Bool := false
  pollIntervalInMillis : Int := 0
  fetchSize : Int := 0
  transportMode : String := ""
  httpPath : String := ""
  tlsConfigSet : Bool := false
  zookeeperNamespace : String := ""
  database : String := ""
  connectTimeout : Int := 0
  socketTimeout : Int := 0
  httpTimeout : Int := 0
  dialContextSet : Bool := false
  disableKeepAlives : Bool := false
  maxSize : Nat := 0
deriving DecidableEq, Repr

/-- hive.go `NewConnectConfiguration` (unnamed fields keep Go zero
values). -/
def NewConnectConfiguration : ConnectConfiguration :=
  { username := "", password := "", service := "",
    hiveConfigurationSet := false, pollIntervalInMillis := 200,
    fetchSize := 1000, transportMode := "binary", httpPath := "cliservice",
    tlsConfigSet := false, zookeeperNamespace := "hiveserver2",
    maxSize := 16384000 }

/-- The thrift socket constructor chosen by hive.go lines 201-231,
carrying the timeouts read from the configuration. -/
inductive SocketSpec where
  | sslFromConn (connectTimeout socketTimeout : Int)  -- NewTSSLSocketFromConnConf
  | fromConn (connectTimeout socketTimeout : Int)     -- NewTSocketFromConnConf
  | ssl (connectTimeout socketTimeout : Int)          -- NewTSSLSocketConf
  | plain (connectTimeout socketTimeout : Int)        -- NewTSocketConf
deriving DecidableEq, Repr

/-- Outcome of a Go step that may dereference a nil pointer. -/
inductive GoStep (α : Type) where
  | ok (a : α)
  | nilPanic
deriving DecidableEq, Repr

/-- hive.go lines 199-235: the socket-building phase of `innerConnect`
reads `configuration.DialContext`, `.TLSConfig`, `.ConnectTimeout` and
`.SocketTimeout`; with a nil configuration the very first field read
faults (nil-pointer dereference). -/
def socketPhase (configuration : Option ConnectConfiguration) :
    GoStep SocketSpec :=
  match configuration with
  | none => GoStep.nilPanic
  | some conf =>
    if conf.dialContextSet then
      if conf.tlsConfigSet then
        GoStep.ok (SocketSpec.sslFromConn conf.connectTimeout conf.socketTimeout)
      else
        GoStep.ok (SocketSpec.fromConn conf.connectTimeout conf.socketTimeout)
    else
      if conf.tlsConfigSet then
        GoStep.ok (SocketSpec.ssl conf.connectTimeout conf.socketTimeout)
      else
        GoStep.ok (SocketSpec.plain conf.connectTimeout conf.socketTimeout)

/-- hive.go lines 199-241: the socket phase followed by the
`configuration == nil` check of line 239 that substitutes
`NewConnectConfiguration()`; the boolean records whether that defaulting
branch ran. -/
def innerConnectConfigPhase (configuration : Option ConnectConfiguration) :
    GoStep (SocketSpec × ConnectConfiguration × Bool) :=
  match socketPhase configuration with
  | GoStep.nilPanic => GoStep.nilPanic
  | GoStep.ok sock =>
    match configuration with
    | none => GoStep.ok (sock, NewConnectConfiguration, true)
    | some conf => GoStep.ok (sock, conf, false)

/-- C9: a nil configuration faults in the socket-building field reads
before the nil check of line 239, so the documented defaulting branch can
never run: `innerConnect` with nil panics, and no input whatsoever
reaches the defaulting substitution. -/
theorem innerConnect_nil_config_unreachable_default :
    innerConnectConfigPhase none = GoStep.nilPanic ∧
      ∀ (configuration : Option ConnectConfiguration) (sock : SocketSpec)
        (conf : ConnectConfiguration),
        innerConnectConfigPhase configuration ≠ GoStep.ok (sock, conf, true) := by
  refine ⟨rfl, ?_⟩
  intro cfg sock conf
  cases cfg with
  | none => simp [innerConnectConfigPhase, socketPhase]
  | some conf₂ =>
    simp only [innerConnectConfigPhase, socketPhase]
    split_ifs <;> simp

/-! ## Transport selection (hive.go lines 254-342) — C6 -/

/-- The transport `innerConnect` builds for a supported
`(TransportMode, auth)` pair. -/
inductive TransportKind where
  | httpUserinfo   -- http + NONE: credentials in the URL userinfo
  | httpNegotiate  -- http + KERBEROS: Authorization Negotiate header
  | buffered       -- binary + NOSASL: 4 KB buffered socket
  | saslPlain      -- binary + NONE / LDAP / CUSTOM: SASL PLAIN
  | saslGssapi     -- binary + KERBEROS: SASL GSSAPI
  | saslDigestMd5  -- binary + DIGEST-MD5
deriving DecidableEq, Repr

/-- Outcome of the transport-selection step: a chosen transport, an error
returned to the caller, or a Go panic.  (Errors the supported paths can
produce for other reasons — SASL setup, HTTP client construction — happen
after the selection and are elided.) -/
inductive BuildResult where
  | ok (t : TransportKind)
  | err (msg : String)
  | panicked (msg : String)
deriving DecidableEq, Repr

/-- hive.go lines 254-342: the `(TransportMode, auth)` dispatch. -/
def buildTransport (transportMode auth : String) : BuildResult :=
  if transportMode = "http" then
    if auth = "NONE" then BuildResult.ok TransportKind.httpUserinfo
    else if auth = "KERBEROS" then BuildResult.ok TransportKind.httpNegotiate
    else BuildResult.panicked "Unrecognized auth"
  else if transportMode = "binary" then
    if auth = "NOSASL" then BuildResult.ok TransportKind.buffered
    else if auth = "NONE" || auth = "LDAP" || auth = "CUSTOM" then
      BuildResult.ok TransportKind.saslPlain
    else if auth = "KERBEROS" then BuildResult.ok TransportKind.saslGssapi
    else if auth = "DIGEST-MD5" then BuildResult.ok TransportKind.saslDigestMd5
    else BuildResult.panicked "Unrecognized auth"
  else BuildResult.panicked ("Unrecognized transport mode " ++ transportMode)

/-- The supported `(transport_mode, auth)` table of the specification. -/
def supportedCombo (transportMode auth : String) : Bool :=
  (transportMode = "http" && (auth = "NONE" || auth = "KERBEROS")) ||
    (transportMode = "binary" &&
      (auth = "NOSASL" || auth = "NONE" || auth = "LDAP" || auth = "CUSTOM" ||
        auth = "KERBEROS" || auth = "DIGEST-MD5"))

/-- The selection produced an error value returned to the caller. -/
def BuildResult.isErr : BuildResult → Bool
  | BuildResult.err _ => true
  | _ => false

/-- Counterexample to C6 as stated: binary transport with the unsupported
auth string "BOGUS" does not make `connect` return a configuration error
to the caller — the code panics with "Unrecognized auth". -/
theorem buildTransport_unsupported_no_error :
    (buildTransport "binary" "BOGUS").isErr = false ∧
      buildTransport "binary" "BOGUS" = BuildResult.panicked "Unrecognized auth" := by
  constructor <;> decide

/-- C6 amended: every `(transport_mode, auth)` combination outside the
supported table makes `innerConnect` panic — with "Unrecognized auth" on
a known transport mode, or "Unrecognized transport mode <mode>" on an
unknown one — instead of returning an error. -/
theorem buildTransport_unsupported_panics (transportMode auth : String)
    (h : supportedCombo transportMode auth = false) :
    buildTransport transportMode auth = BuildResult.panicked "Unrecognized auth" ∨
      buildTransport transportMode auth =
        BuildResult.panicked ("Unrecognized transport mode " ++ transportMode) := by
  unfold supportedCombo at h
  unfold buildTransport
  split_ifs <;> simp_all

/-- Witness for the amended C6. -/
theorem buildTransport_unsupported_panics_witness :
    supportedCombo "binary" "BOGUS" = false ∧
      (buildTransport "binary" "BOGUS" = BuildResult.panicked "Unrecognized auth" ∨
        buildTransport "binary" "BOGUS" =
          BuildResult.panicked ("Unrecognized transport mode " ++ "binary")) :=
  ⟨by decide, buildTransport_unsupported_panics "binary" "BOGUS" (by decide)⟩
